import Mathlib

/-!
# Verification of the invoiceComply fixture generators

Shallow embedding of the two invoice-generator scripts
(`generate_french_invoice.py`, FPDF variant, and
`generate_clean_invoice.py`, ReportLab variant).

Modelling choices:
* Money is represented in euro-cents (`Nat`).  Every amount in the scripts
  (1000.00, 150.00, 450.00, 200.00, 400.00 and the derived 1850.00, 370.00,
  2220.00) is an exact integer number of cents, and the Python float
  computation `total_ht * 0.20` and the float additions are exact at these
  values (no IEEE rounding occurs), so integer cents arithmetic is faithful.
* `datetime.now()` is modelled by a calendar `Date` (year, month, day);
  the time-of-day component is irrelevant: `strftime("%d/%m/%Y")` only
  reads the date, and adding `timedelta(days=30)` to a naive datetime
  advances the calendar date by exactly 30 days.  Day addition is modelled
  by iterating a single-day successor with Gregorian month/year rollover,
  and checked against an absolute day count (`toOrdinal`).
* The "document content" of a run is the list of text strings handed to the
  rendering library (FPDF `cell` texts / ReportLab `Paragraph` and table
  cell texts), in emission order — the spec's interface is text extraction.
* Each script calls `datetime.now()` twice (once for the issue date, once
  for the due date); the embedding therefore takes two date parameters.
-/

namespace InvoiceComply

/-! ## Calendar model (semantics of naive `datetime` day arithmetic) -/

structure Date where
  year : Nat
  month : Nat
  day : Nat
deriving DecidableEq

/-- Gregorian leap-year rule. -/
def isLeap (y : Nat) : Prop := (y % 4 = 0 ∧ y % 100 ≠ 0) ∨ y % 400 = 0

instance (y : Nat) : Decidable (isLeap y) := by
  unfold isLeap
  exact inferInstance

def daysInMonth (y m : Nat) : Nat :=
  if m = 2 then (if isLeap y then 29 else 28)
  else if m = 4 ∨ m = 6 ∨ m = 9 ∨ m = 11 then 30
  else 31

def Date.Valid (d : Date) : Prop :=
  1 ≤ d.year ∧ 1 ≤ d.month ∧ d.month ≤ 12 ∧ 1 ≤ d.day ∧
    d.day ≤ daysInMonth d.year d.month

instance (d : Date) : Decidable d.Valid := by
  unfold Date.Valid
  exact inferInstance

/-- Advance a date by one day, with month and year rollover. -/
def nextDay (d : Date) : Date :=
  if d.day < daysInMonth d.year d.month then ⟨d.year, d.month, d.day + 1⟩
  else if d.month < 12 then ⟨d.year, d.month + 1, 1⟩
  else ⟨d.year + 1, 1, 1⟩

/-- `addDays d n` advances `d` by `n` calendar days: the semantics of
`datetime + timedelta(days=n)` at the date level. -/
def addDays (d : Date) : Nat → Date
  | 0 => d
  | n + 1 => nextDay (addDays d n)

/-- Absolute day count of a civil date (days-from-civil, March-based era
arithmetic).  Used as the independent yardstick against which the rollover
behaviour of `nextDay` is checked. -/
def toOrdinal (d : Date) : Nat :=
  let yp := if d.month ≤ 2 then d.year - 1 else d.year
  let era := yp / 400
  let yoe := yp % 400
  let mp := if d.month ≤ 2 then d.month + 9 else d.month - 3
  let doy := (153 * mp + 2) / 5 + (d.day - 1)
  era * 146097 + (yoe * 365 + yoe / 4 - yoe / 100 + doy)

/-! ## Money formatting

Amounts are euro-cents.  `fmtMoney` is the rendering of an exact-cents
amount by the Python f-string `f"{x:.2f} EUR"` (all amounts in these
scripts are exact in cents, so no float rounding is involved). -/

def fmtNat2 (n : Nat) : String :=
  if n < 10 then "0" ++ toString n else toString n

def fmtMoney (cents : Nat) : String :=
  toString (cents / 100) ++ "." ++ fmtNat2 (cents % 100) ++ " EUR"

/-- `strftime("%d/%m/%Y")` on a date. -/
def fmtDate (d : Date) : String :=
  fmtNat2 d.day ++ "/" ++ fmtNat2 d.month ++ "/" ++ toString d.year

/-! ## Line items (the `services` list of generate_french_invoice.py) -/

structure Service where
  desc : String
  qty : Nat
  unitPrice : Nat
  total : Nat
deriving DecidableEq

/-- The hardcoded `services` list (lines 63-67 of the FPDF script):
`(description, qty, unit_price, total)`, prices in cents. -/
def services : List Service :=
  [⟨"Développement site web", 1, 100000, 100000⟩,
   ⟨"Maintenance mensuelle", 3, 15000, 45000⟩,
   ⟨"Formation utilisateurs", 2, 20000, 40000⟩]

/-- `total_ht`: the loop `for ...: total_ht += total` starting from 0. -/
def total_ht (svcs : List Service) : Nat :=
  svcs.foldl (fun acc s => acc + s.total) 0

/-- `tva_amount = total_ht * 0.20` (exact at the data in play). -/
def tva_amount (svcs : List Service) : Nat :=
  total_ht svcs * 20 / 100

/-- `total_ttc = total_ht + tva_amount`. -/
def total_ttc (svcs : List Service) : Nat :=
  total_ht svcs + tva_amount svcs

/-- One row of the FPDF services table: the four `pdf.cell` texts emitted
per iteration of the loop (lines 70-75). -/
def serviceRow (s : Service) : List String :=
  [s.desc, toString s.qty, fmtMoney s.unitPrice, fmtMoney s.total]

/-! ## Invoice content

`InvoiceContent` collects, field by field, the text strings each script
hands to its rendering library.  The FPDF variant's strings are bare; the
ReportLab variant's strings keep their inline `<b>...</b>` markup exactly
as written in the source. -/

structure InvoiceContent where
  title : String
  issuer : List String
  number : String
  dateLine : String
  dueLine : String
  client : List String
  tableHeader : List String
  items : List (List String)
  totals : List (List String)
  terms : List String
  legal : List String
deriving DecidableEq

/-- Content built by `generate_french_invoice` (FPDF variant), with the
services list abstracted so that dependence on its fields can be stated.
`t1` and `t2` are the two `datetime.now()` readings (line 40 and 41). -/
def french_content_with (svcs : List Service) (t1 t2 : Date) : InvoiceContent where
  title := "FACTURE"
  issuer := ["TECH SOLUTIONS SARL", "123 Avenue des Champs-Élysées",
    "75008 Paris, France", "SIRET: 12345678901234", "TVA: FR12345678901",
    "Tél: 01 42 86 83 26"]
  number := "FACTURE N° FAC-2024-001234"
  dateLine := "Date: " ++ fmtDate t1
  dueLine := "Date d\x27échéance: " ++ fmtDate (addDays t2 30)
  client := ["FACTURÉ À:", "CLIENT ENTREPRISE SAS", "456 Avenue des Clients",
    "69000 Lyon, France", "SIRET: 98765432109876"]
  tableHeader := ["Description", "Qté", "Prix unitaire", "Total HT"]
  items := svcs.map serviceRow
  totals := [["Sous-total HT:", fmtMoney (total_ht svcs)],
    ["TVA (20%):", fmtMoney (tva_amount svcs)],
    ["TOTAL TTC:", fmtMoney (total_ttc svcs)]]
  terms := ["Conditions de paiement: 30 jours",
    "Mode de paiement: Virement bancaire"]
  legal := ["En cas de retard de paiement, seront exigibles une indemnite de 40 EUR pour frais de recouvrement",
    "et des intérêts de retard au taux de 10% (art. L441-6 du Code de commerce).",
    "Aucun escompte pour paiement anticipé."]

def french_content (t1 t2 : Date) : InvoiceContent :=
  french_content_with services t1 t2

/-- Header row of the ReportLab services table (`data[0]`, line 77). -/
def clean_table_header : List String :=
  ["Description", "Qté", "Prix unitaire", "Total HT"]

/-- The three hardcoded data rows of the ReportLab services table
(`data[1:]`, lines 78-80): every value is a fixed string literal. -/
def clean_table_rows : List (List String) :=
  [["Développement site web", "1", "1000.00 EUR", "1000.00 EUR"],
   ["Maintenance mensuelle", "3", "150.00 EUR", "450.00 EUR"],
   ["Formation utilisateurs", "2", "200.00 EUR", "400.00 EUR"]]

/-- `totals_data` of the ReportLab script (lines 102-106): fixed string
literals, including the `<b>` markup on the grand-total row. -/
def clean_totals_data : List (List String) :=
  [["Sous-total HT:", "1850.00 EUR"],
   ["TVA (20%):", "370.00 EUR"],
   ["<b>TOTAL TTC:</b>", "<b>2220.00 EUR</b>"]]

/-- Content built by `create_clean_french_invoice` (ReportLab variant).
`t1` and `t2` are the two `datetime.now()` readings (line 63 and 64). -/
def clean_content (t1 t2 : Date) : InvoiceContent where
  title := "FACTURE"
  issuer := ["<b>TECH SOLUTIONS SARL</b>", "123 Avenue des Champs-Élysées",
    "75008 Paris, France", "SIRET: 12345678901234", "TVA: FR12345678901",
    "Tél: 01 42 86 83 26"]
  number := "<b>FACTURE N° FAC-2024-001234</b>"
  dateLine := "Date: " ++ fmtDate t1
  dueLine := "Date d\x27échéance: " ++ fmtDate (addDays t2 30)
  client := ["<b>FACTURÉ À:</b>", "CLIENT ENTREPRISE SAS",
    "456 Avenue des Clients", "69000 Lyon, France", "SIRET: 98765432109876"]
  tableHeader := clean_table_header
  items := clean_table_rows
  totals := clean_totals_data
  terms := ["<b>Conditions de paiement:</b> 30 jours",
    "<b>Mode de paiement:</b> Virement bancaire"]
  legal := ["En cas de retard de paiement, seront exigibles une indemnité de 40 EUR pour frais de recouvrement",
    "et des intérêts de retard au taux de 10% (art. L441-6 du Code de commerce).",
    "Aucun escompte pour paiement anticipé."]

/-- Flatten the content to the ordered list of emitted text strings. -/
def InvoiceContent.lines (c : InvoiceContent) : List String :=
  [c.title] ++ c.issuer ++ [c.number, c.dateLine, c.dueLine] ++ c.client ++
    c.tableHeader ++ c.items.flatten ++ c.totals.flatten ++ c.terms ++ c.legal

/-- The document text of a run of the FPDF script (the footer of the single
page renders as `Page 1`). -/
def generate_french_invoice (t1 t2 : Date) : List String :=
  (french_content t1 t2).lines ++ ["Page 1"]

/-- The document text of a run of the ReportLab script. -/
def create_clean_french_invoice (t1 t2 : Date) : List String :=
  (clean_content t1 t2).lines

/-! ## Console summaries (the `main` functions)

The file size printed by each `main` is the value read back from the
filesystem with `os.path.getsize`; it enters the model as the parameter
`size`.  A Python `print("\n...")` emits an empty line then the text. -/

/-- The ten field-recap lines, identical in both scripts. -/
def invoice_summary_fields : List String :=
  ["- Émetteur: TECH SOLUTIONS SARL",
   "- SIRET émetteur: 12345678901234",
   "- TVA émetteur: FR12345678901",
   "- Client: CLIENT ENTREPRISE SAS",
   "- SIRET client: 98765432109876",
   "- Numéro: FAC-2024-001234",
   "- Total HT: 1850.00 EUR",
   "- TVA 20%: 370.00 EUR",
   "- Total TTC: 2220.00 EUR",
   "- Conditions: 30 jours"]

def french_main_output (size : Nat) : List String :=
  ["Génération d\x27une facture française pour InvoiceComply...",
   "Facture générée: facture_test_invoicecomply.pdf",
   "Taille du fichier: " ++ toString size ++ " bytes",
   "",
   "Contenu de la facture:"] ++ invoice_summary_fields

def clean_main_output (size : Nat) : List String :=
  ["Génération d\x27une facture française propre avec ReportLab...",
   "Facture générée: facture_clean_invoicecomply.pdf",
   "Taille du fichier: " ++ toString size ++ " bytes",
   "",
   "Contenu de la facture:"] ++ invoice_summary_fields ++
  ["",
   "Cette facture devrait être parfaitement lisible par pdf-parse!"]

/-! ## Error propagation model

Neither script contains a try/except.  The write of the document (FPDF
`pdf.output` / ReportLab `doc.build`) is the only fallible step; it is
modelled as a parameter returning either an error or the written file's
size, and each `main` simply sequences on it. -/

def run_french (write : List String → Except String Nat) (t1 t2 : Date) :
    Except String (List String) :=
  match write (generate_french_invoice t1 t2) with
  | .error e => .error e
  | .ok size => .ok (french_main_output size)

def run_clean (write : List String → Except String Nat) (t1 t2 : Date) :
    Except String (List String) :=
  match write (create_clean_french_invoice t1 t2) with
  | .error e => .error e
  | .ok size => .ok (clean_main_output size)

/-! ## Text-extraction predicates -/

/-- `charsBeginWith pat s`: `pat` is an initial segment of `s`. -/
def charsBeginWith : List Char → List Char → Bool
  | [], _ => true
  | _ :: _, [] => false
  | p :: ps, c :: cs => p == c && charsBeginWith ps cs

/-- `charsOccur pat s`: `pat` occurs contiguously somewhere in `s`. -/
def charsOccur (pat : List Char) : List Char → Bool
  | [] => charsBeginWith pat []
  | c :: cs => charsBeginWith pat (c :: cs) || charsOccur pat cs

/-- `pat` occurs as a contiguous substring of `s`. -/
def strOccurs (pat s : String) : Bool :=
  charsOccur pat.data s.data

/-- `pat` is extractable text of the document `doc` (a list of rendered
strings): it occurs inside at least one of them. -/
def appearsIn (doc : List String) (pat : String) : Prop :=
  ∃ c, c ∈ doc ∧ strOccurs pat c = true

/-- Extractable text of a ReportLab markup string: tag regions
(`<b>`, `</b>`) are consumed by the renderer and do not appear in the
extracted text.  `inTag` tracks whether the scan is inside a tag. -/
def stripMarkupAux : Bool → List Char → List Char
  | _, [] => []
  | false, c :: cs =>
    if c = '<' then stripMarkupAux true cs else c :: stripMarkupAux false cs
  | true, c :: cs =>
    if c = '>' then stripMarkupAux false cs else stripMarkupAux true cs

def stripMarkup (s : String) : String :=
  String.mk (stripMarkupAux false s.data)

/-- The cells of a content value that do not depend on the clock readings. -/
def InvoiceContent.bodyCells (c : InvoiceContent) : List String :=
  c.issuer ++ [c.number] ++ c.client ++ c.tableHeader ++ c.items.flatten ++
    c.totals.flatten ++ c.terms ++ c.legal

/-- Executable form of `appearsIn`. -/
def appearsInB (doc : List String) (pat : String) : Bool :=
  doc.any (fun c => strOccurs pat c)

/-- The ten literal strings the spec requires to be extractable from the
produced document. -/
def requiredStrings : List String :=
  ["TECH SOLUTIONS SARL", "12345678901234", "FR12345678901",
   "CLIENT ENTREPRISE SAS", "98765432109876", "FAC-2024-001234",
   "1850.00", "370.00", "2220.00", "30 jours"]

/-! ## Calendar lemmas -/

theorem daysInMonth_pos (y m : Nat) : 1 ≤ daysInMonth y m := by
  unfold daysInMonth
  split_ifs <;> omega

theorem valid_nextDay_aux (y m dd : Nat) (hy : 1 ≤ y) (hm1 : 1 ≤ m)
    (hm12 : m ≤ 12) (hd1 : 1 ≤ dd) (_hdm : dd ≤ daysInMonth y m) :
    (nextDay ⟨y, m, dd⟩).Valid := by
  have p1 := daysInMonth_pos y (m + 1)
  have p2 := daysInMonth_pos (y + 1) 1
  by_cases h1 : dd < daysInMonth y m
  · have hn : nextDay ⟨y, m, dd⟩ = ⟨y, m, dd + 1⟩ := by
      unfold nextDay
      simp only [if_pos h1]
    rw [hn]
    exact ⟨hy, hm1, hm12, by
      show 1 ≤ dd + 1
      omega, by
      show dd + 1 ≤ daysInMonth y m
      omega⟩
  · by_cases hm : m < 12
    · have hn : nextDay ⟨y, m, dd⟩ = ⟨y, m + 1, 1⟩ := by
        unfold nextDay
        simp only [if_neg h1, if_pos hm]
      rw [hn]
      exact ⟨hy, by
        show 1 ≤ m + 1
        omega, by
        show m + 1 ≤ 12
        omega, by
        show 1 ≤ 1
        omega, by
        show 1 ≤ daysInMonth y (m + 1)
        omega⟩
    · have hn : nextDay ⟨y, m, dd⟩ = ⟨y + 1, 1, 1⟩ := by
        unfold nextDay
        simp only [if_neg h1, if_neg hm]
      rw [hn]
      exact ⟨by
        show 1 ≤ y + 1
        omega, by
        show 1 ≤ 1
        omega, by
        show 1 ≤ 12
        omega, by
        show 1 ≤ 1
        omega, by
        show 1 ≤ daysInMonth (y + 1) 1
        omega⟩

theorem valid_nextDay (d : Date) (h : d.Valid) : (nextDay d).Valid := by
  obtain ⟨y, m, dd⟩ := d
  exact valid_nextDay_aux y m dd h.1 h.2.1 h.2.2.1 h.2.2.2.1 h.2.2.2.2

set_option maxHeartbeats 2000000 in
theorem toOrdinal_nextDay_aux (y m dd : Nat) (hy : 1 ≤ y) (hm1 : 1 ≤ m)
    (hm12 : m ≤ 12) (hd1 : 1 ≤ dd) (hdm : dd ≤ daysInMonth y m) :
    toOrdinal (nextDay ⟨y, m, dd⟩) = toOrdinal ⟨y, m, dd⟩ + 1 := by
  by_cases h1 : dd < daysInMonth y m
  · have hn : nextDay ⟨y, m, dd⟩ = ⟨y, m, dd + 1⟩ := by
      unfold nextDay
      simp only [if_pos h1]
    rw [hn]
    simp only [toOrdinal]
    split_ifs <;> omega
  · have h2 : dd = daysInMonth y m := le_antisymm hdm (not_lt.mp h1)
    by_cases hm : m < 12
    · have hn : nextDay ⟨y, m, dd⟩ = ⟨y, m + 1, 1⟩ := by
        unfold nextDay
        simp only [if_neg h1, if_pos hm]
      rw [hn, h2]
      unfold daysInMonth isLeap
      interval_cases m <;> norm_num [toOrdinal] <;>
        first
        | (split_ifs <;> omega)
        | omega
    · have hm12eq : m = 12 := by omega
      subst hm12eq
      have hn : nextDay ⟨y, 12, dd⟩ = ⟨y + 1, 1, 1⟩ := by
        unfold nextDay
        simp only [if_neg h1]
        norm_num
      rw [hn, h2]
      norm_num [toOrdinal, daysInMonth]
      omega

theorem toOrdinal_nextDay (d : Date) (h : d.Valid) :
    toOrdinal (nextDay d) = toOrdinal d + 1 := by
  obtain ⟨y, m, dd⟩ := d
  exact toOrdinal_nextDay_aux y m dd h.1 h.2.1 h.2.2.1 h.2.2.2.1 h.2.2.2.2

theorem addDays_succ (d : Date) (n : Nat) :
    addDays d (n + 1) = nextDay (addDays d n) := rfl

theorem toOrdinal_addDays (d : Date) (h : d.Valid) (n : Nat) :
    (addDays d n).Valid ∧ toOrdinal (addDays d n) = toOrdinal d + n := by
  induction n with
  | zero => exact ⟨h, by simp [addDays]⟩
  | succ n ih =>
    obtain ⟨hv, ho⟩ := ih
    rw [addDays_succ]
    refine ⟨valid_nextDay _ hv, ?_⟩
    have hstep := toOrdinal_nextDay _ hv
    omega

/-! ## Text-extraction and membership lemmas -/

theorem mem_lines_of_bodyCells {c : InvoiceContent} {x : String}
    (h : x ∈ c.bodyCells) : x ∈ c.lines := by
  simp only [InvoiceContent.bodyCells, InvoiceContent.lines,
    List.mem_append, List.mem_cons, List.not_mem_nil, or_false] at h ⊢
  tauto

theorem mem_lines_of_dateLine (c : InvoiceContent) : c.dateLine ∈ c.lines := by
  simp [InvoiceContent.lines]

theorem mem_lines_of_dueLine (c : InvoiceContent) : c.dueLine ∈ c.lines := by
  simp [InvoiceContent.lines]

theorem appearsIn_sub {d1 d2 : List String} {pat : String}
    (hsub : ∀ x, x ∈ d1 → x ∈ d2) (h : appearsIn d1 pat) : appearsIn d2 pat :=
  let ⟨c, hc, ho⟩ := h
  ⟨c, hsub c hc, ho⟩

theorem appearsIn_of_appearsInB {doc : List String} {pat : String}
    (h : appearsInB doc pat = true) : appearsIn doc pat := by
  unfold appearsInB at h
  rw [List.any_eq_true] at h
  obtain ⟨c, hc, ho⟩ := h
  exact ⟨c, hc, ho⟩

/-- A pattern found among the clock-independent cells appears in the FPDF
document, whatever the clock readings were. -/
theorem appears_french_body (t1 t2 : Date) (pat : String)
    (h : appearsInB (french_content t1 t2).bodyCells pat = true) :
    appearsIn (generate_french_invoice t1 t2) pat :=
  appearsIn_sub (fun _ hx => List.mem_append_left _ (mem_lines_of_bodyCells hx))
    (appearsIn_of_appearsInB h)

/-- Likewise for the ReportLab document. -/
theorem appears_clean_body (t1 t2 : Date) (pat : String)
    (h : appearsInB (clean_content t1 t2).bodyCells pat = true) :
    appearsIn (create_clean_french_invoice t1 t2) pat :=
  appearsIn_sub (fun _ hx => mem_lines_of_bodyCells hx)
    (appearsIn_of_appearsInB h)

/-- A pattern found among the ten field-recap lines appears in the FPDF
script's console output, whatever the file size was. -/
theorem appears_french_summary (size : Nat) (pat : String)
    (h : appearsInB invoice_summary_fields pat = true) :
    appearsIn (french_main_output size) pat :=
  appearsIn_sub (fun _ hx => List.mem_append_right _ hx)
    (appearsIn_of_appearsInB h)

/-- Likewise for the ReportLab script's console output. -/
theorem appears_clean_summary (size : Nat) (pat : String)
    (h : appearsInB invoice_summary_fields pat = true) :
    appearsIn (clean_main_output size) pat :=
  appearsIn_sub
    (fun _ hx => List.mem_append_left _ (List.mem_append_right _ hx))
    (appearsIn_of_appearsInB h)

/-- The running subtotal computed by the FPDF loop is the sum of the
hardcoded per-line `total` fields. -/
theorem total_ht_eq_sum (svcs : List Service) :
    total_ht svcs = (svcs.map Service.total).sum := by
  have key : ∀ (l : List Service) (a : Nat),
      l.foldl (fun acc s => acc + s.total) a = a + (l.map Service.total).sum := by
    intro l
    induction l with
    | nil =>
      intro a
      simp
    | cons s t ih =>
      intro a
      simp only [List.foldl_cons, List.map_cons, List.sum_cons]
      rw [ih]
      omega
  unfold total_ht
  rw [key]
  omega

/-! ## Claims -/

/-- C1: for the fixed hardcoded input data, both generator variants produce
an invoice whose subtotal equals 1850.00, tax amount 370.00 and grand total
2220.00 (euro, two-decimal rendering), both in the rendered document
content and in the printed summary. -/
theorem totals_are_1850_370_2220 :
    (total_ht services = 185000 ∧ tva_amount services = 37000 ∧
      total_ttc services = 222000 ∧
      fmtMoney (total_ht services) = "1850.00 EUR" ∧
      fmtMoney (tva_amount services) = "370.00 EUR" ∧
      fmtMoney (total_ttc services) = "2220.00 EUR") ∧
    (∀ t1 t2 : Date,
      appearsIn (generate_french_invoice t1 t2) "1850.00" ∧
      appearsIn (generate_french_invoice t1 t2) "370.00" ∧
      appearsIn (generate_french_invoice t1 t2) "2220.00" ∧
      appearsIn (create_clean_french_invoice t1 t2) "1850.00" ∧
      appearsIn (create_clean_french_invoice t1 t2) "370.00" ∧
      appearsIn (create_clean_french_invoice t1 t2) "2220.00") ∧
    (∀ size : Nat,
      appearsIn (french_main_output size) "1850.00" ∧
      appearsIn (french_main_output size) "370.00" ∧
      appearsIn (french_main_output size) "2220.00" ∧
      appearsIn (clean_main_output size) "1850.00" ∧
      appearsIn (clean_main_output size) "370.00" ∧
      appearsIn (clean_main_output size) "2220.00") := by
  refine ⟨by decide, fun t1 t2 => ?_, fun size => ?_⟩
  · exact ⟨appears_french_body t1 t2 _ (by rfl),
      appears_french_body t1 t2 _ (by rfl),
      appears_french_body t1 t2 _ (by rfl),
      appears_clean_body t1 t2 _ (by rfl),
      appears_clean_body t1 t2 _ (by rfl),
      appears_clean_body t1 t2 _ (by rfl)⟩
  · exact ⟨appears_french_summary size _ (by rfl),
      appears_french_summary size _ (by rfl),
      appears_french_summary size _ (by rfl),
      appears_clean_summary size _ (by rfl),
      appears_clean_summary size _ (by rfl),
      appears_clean_summary size _ (by rfl)⟩

/-- C2: for every run of either generator, each of the ten required literal
strings appears as extractable text in the produced document content. -/
theorem required_literals_extractable (t1 t2 : Date) (pat : String)
    (hp : pat ∈ requiredStrings) :
    appearsIn (generate_french_invoice t1 t2) pat ∧
    appearsIn (create_clean_french_invoice t1 t2) pat := by
  simp only [requiredStrings, List.mem_cons, List.not_mem_nil, or_false] at hp
  rcases hp with rfl | rfl | rfl | rfl | rfl | rfl | rfl | rfl | rfl | rfl <;>
    exact ⟨appears_french_body _ _ _ (by rfl), appears_clean_body _ _ _ (by rfl)⟩

theorem required_literals_extractable_witness :
    "TECH SOLUTIONS SARL" ∈ requiredStrings ∧
    (appearsIn (generate_french_invoice ⟨2024, 1, 15⟩ ⟨2024, 1, 15⟩)
        "TECH SOLUTIONS SARL" ∧
      appearsIn (create_clean_french_invoice ⟨2024, 1, 15⟩ ⟨2024, 1, 15⟩)
        "TECH SOLUTIONS SARL") :=
  ⟨by decide, required_literals_extractable _ _ _ (by decide)⟩

/-- C3: the invoice value of either variant satisfies: grand total =
subtotal × (1 + 20%), and subtotal = sum of the line-item totals; the
rendered totals of both variants carry exactly these values. -/
theorem tax_invariant_holds :
    total_ht services = (services.map Service.total).sum ∧
    total_ttc services = total_ht services * (100 + 20) / 100 ∧
    (∀ t1 t2 : Date, (french_content t1 t2).totals =
      [["Sous-total HT:", fmtMoney (total_ht services)],
       ["TVA (20%):", fmtMoney (tva_amount services)],
       ["TOTAL TTC:", fmtMoney (total_ttc services)]]) ∧
    clean_totals_data =
      [["Sous-total HT:", fmtMoney (total_ht services)],
       ["TVA (20%):", fmtMoney (tva_amount services)],
       ["<b>TOTAL TTC:</b>", "<b>" ++ fmtMoney (total_ttc services) ++ "</b>"]] :=
  ⟨by decide, by decide, fun t1 t2 => rfl, by decide⟩

/-- C4: every line item of either variant's fixed list has a line total
equal to the exact product quantity × unit price (in cents, i.e. at
two-decimal rounding); the ReportLab rows are exactly the rendering of the
same service list. -/
theorem line_totals_are_exact_products :
    (∀ s ∈ services, s.total = s.qty * s.unitPrice) ∧
    clean_table_rows = services.map serviceRow :=
  ⟨by decide, by decide⟩

theorem line_totals_are_exact_products_witness :
    (⟨"Développement site web", 1, 100000, 100000⟩ : Service) ∈ services ∧
    (100000 : Nat) = 1 * 100000 :=
  ⟨by decide, line_totals_are_exact_products.1
    ⟨"Développement site web", 1, 100000, 100000⟩ (by decide)⟩

/-- C5: for a run taking place on a single (valid) calendar day `t`, both
documents render the issue date `t` and a due date lying exactly 30
absolute days after `t`, with Gregorian month/year rollover handled by
`addDays`/`nextDay`. -/
theorem due_date_is_issue_plus_thirty (t : Date) (h : t.Valid) :
    ("Date: " ++ fmtDate t) ∈ generate_french_invoice t t ∧
    ("Date d\x27échéance: " ++ fmtDate (addDays t 30)) ∈
      generate_french_invoice t t ∧
    ("Date: " ++ fmtDate t) ∈ create_clean_french_invoice t t ∧
    ("Date d\x27échéance: " ++ fmtDate (addDays t 30)) ∈
      create_clean_french_invoice t t ∧
    (addDays t 30).Valid ∧
    toOrdinal (addDays t 30) = toOrdinal t + 30 := by
  refine ⟨?_, ?_, ?_, ?_, (toOrdinal_addDays t h 30).1, (toOrdinal_addDays t h 30).2⟩
  · exact List.mem_append_left _ (mem_lines_of_dateLine _)
  · exact List.mem_append_left _ (mem_lines_of_dueLine _)
  · exact mem_lines_of_dateLine _
  · exact mem_lines_of_dueLine _

theorem due_date_is_issue_plus_thirty_witness :
    (⟨2024, 1, 15⟩ : Date).Valid ∧
    toOrdinal (addDays ⟨2024, 1, 15⟩ 30) = toOrdinal ⟨2024, 1, 15⟩ + 30 ∧
    addDays ⟨2024, 1, 15⟩ 30 = ⟨2024, 2, 14⟩ ∧
    addDays ⟨2024, 12, 15⟩ 30 = ⟨2025, 1, 14⟩ :=
  ⟨by decide, (due_date_is_issue_plus_thirty ⟨2024, 1, 15⟩ (by decide)).2.2.2.2.2,
    by decide, by decide⟩

/-- C6, counterexample to the claim as stated: the two variants do not
produce the same invoice content — the extracted legal-mention text
differs (the FPDF variant writes "indemnite", the ReportLab variant
"indemnité"). -/
theorem legal_text_differs :
    (french_content ⟨2024, 1, 15⟩ ⟨2024, 1, 15⟩).legal ≠
      (clean_content ⟨2024, 1, 15⟩ ⟨2024, 1, 15⟩).legal.map stripMarkup := by
  decide

/-- C6, amended: run on the same date, the two variants render the same
invoice content field for field — comparing the ReportLab strings after
the renderer consumes their inline `<b>` markup — except the first
legal-mention line, where the FPDF variant writes "indemnite" unaccented
and the ReportLab variant writes "indemnité". -/
theorem variants_agree_except_first_legal_line (t1 t2 : Date) :
    (french_content t1 t2).title = (clean_content t1 t2).title ∧
    (french_content t1 t2).issuer =
      (clean_content t1 t2).issuer.map stripMarkup ∧
    (french_content t1 t2).number = stripMarkup (clean_content t1 t2).number ∧
    (french_content t1 t2).dateLine = (clean_content t1 t2).dateLine ∧
    (french_content t1 t2).dueLine = (clean_content t1 t2).dueLine ∧
    (french_content t1 t2).client =
      (clean_content t1 t2).client.map stripMarkup ∧
    (french_content t1 t2).tableHeader = (clean_content t1 t2).tableHeader ∧
    (french_content t1 t2).items = (clean_content t1 t2).items ∧
    (french_content t1 t2).totals =
      (clean_content t1 t2).totals.map (fun r => r.map stripMarkup) ∧
    (french_content t1 t2).terms =
      (clean_content t1 t2).terms.map stripMarkup ∧
    (french_content t1 t2).legal.tail = (clean_content t1 t2).legal.tail ∧
    (french_content t1 t2).legal.head? =
      some "En cas de retard de paiement, seront exigibles une indemnite de 40 EUR pour frais de recouvrement" ∧
    (clean_content t1 t2).legal.head? =
      some "En cas de retard de paiement, seront exigibles une indemnité de 40 EUR pour frais de recouvrement" :=
  ⟨rfl, by rfl, by rfl, rfl, rfl, by rfl, by rfl, by rfl, by rfl, by rfl,
    by rfl, rfl, rfl⟩

/-- C7: each variant's summary prints the size read back from the
filesystem (the `size` parameter) alongside every field-recap line, and
the printed block ends in a French-language confirmation line (the FPDF
variant ends on its last recap line, the ReportLab variant on an explicit
closing sentence). -/
theorem summary_reports_size_fields_and_confirmation (size : Nat) :
    ("Taille du fichier: " ++ toString size ++ " bytes") ∈
      french_main_output size ∧
    ("Taille du fichier: " ++ toString size ++ " bytes") ∈
      clean_main_output size ∧
    (∀ f ∈ invoice_summary_fields,
      f ∈ french_main_output size ∧ f ∈ clean_main_output size) ∧
    (french_main_output size).getLast? = some "- Conditions: 30 jours" ∧
    (clean_main_output size).getLast? =
      some "Cette facture devrait être parfaitement lisible par pdf-parse!" := by
  refine ⟨by simp [french_main_output], by simp [clean_main_output], ?_, rfl, rfl⟩
  intro f hf
  exact ⟨List.mem_append_right _ hf,
    List.mem_append_left _ (List.mem_append_right _ hf)⟩

theorem summary_reports_size_fields_and_confirmation_witness :
    "- Total HT: 1850.00 EUR" ∈ invoice_summary_fields ∧
    ("- Total HT: 1850.00 EUR" ∈ french_main_output 4242 ∧
      "- Total HT: 1850.00 EUR" ∈ clean_main_output 4242) :=
  ⟨by decide,
    (summary_reports_size_fields_and_confirmation 4242).2.2.1 _ (by decide)⟩

/-- C8: neither generator recovers from errors: if the write of the
document fails, the error propagates unchanged out of the run; if the
write succeeds, the run always completes with the summary — content
construction itself (a total function here, as in the scripts) never
fails. -/
theorem errors_propagate_uncaught :
    (∀ (w : List String → Except String Nat) (t1 t2 : Date) (e : String),
      w (generate_french_invoice t1 t2) = Except.error e →
      run_french w t1 t2 = Except.error e) ∧
    (∀ (w : List String → Except String Nat) (t1 t2 : Date) (e : String),
      w (create_clean_french_invoice t1 t2) = Except.error e →
      run_clean w t1 t2 = Except.error e) ∧
    (∀ (w : List String → Except String Nat) (t1 t2 : Date) (n : Nat),
      w (generate_french_invoice t1 t2) = Except.ok n →
      run_french w t1 t2 = Except.ok (french_main_output n)) ∧
    (∀ (w : List String → Except String Nat) (t1 t2 : Date) (n : Nat),
      w (create_clean_french_invoice t1 t2) = Except.ok n →
      run_clean w t1 t2 = Except.ok (clean_main_output n)) := by
  refine ⟨fun w t1 t2 e h => ?_, fun w t1 t2 e h => ?_,
    fun w t1 t2 n h => ?_, fun w t1 t2 n h => ?_⟩
  · simp [run_french, h]
  · simp [run_clean, h]
  · simp [run_french, h]
  · simp [run_clean, h]

theorem errors_propagate_uncaught_witness :
    ((fun _ => Except.error "PermissionError" :
        List String → Except String Nat)
      (generate_french_invoice ⟨2024, 1, 15⟩ ⟨2024, 1, 15⟩) =
        Except.error "PermissionError") ∧
    run_french (fun _ => Except.error "PermissionError")
      ⟨2024, 1, 15⟩ ⟨2024, 1, 15⟩ = Except.error "PermissionError" :=
  ⟨rfl, errors_propagate_uncaught.1 _ _ _ _ rfl⟩

set_option maxRecDepth 4000 in
/-- C9: in both variants the issue date and the due date come from two
separate clock readings `t1`, `t2`, both rendered into the document; the
rendered due date is 30 days after the rendered issue date whenever both
readings fall on the same calendar day, and this can fail when they do
not (e.g. readings on Jan 15 and Jan 16, 2024). -/
theorem due_date_needs_same_day_readings :
    (∀ t1 t2 : Date,
      ("Date: " ++ fmtDate t1) ∈ generate_french_invoice t1 t2 ∧
      ("Date d\x27échéance: " ++ fmtDate (addDays t2 30)) ∈
        generate_french_invoice t1 t2 ∧
      ("Date: " ++ fmtDate t1) ∈ create_clean_french_invoice t1 t2 ∧
      ("Date d\x27échéance: " ++ fmtDate (addDays t2 30)) ∈
        create_clean_french_invoice t1 t2) ∧
    (∀ t1 t2 : Date, t1.Valid → t1 = t2 →
      toOrdinal (addDays t2 30) = toOrdinal t1 + 30) ∧
    toOrdinal (addDays ⟨2024, 1, 16⟩ 30) ≠ toOrdinal ⟨2024, 1, 15⟩ + 30 := by
  refine ⟨fun t1 t2 => ⟨?_, ?_, ?_, ?_⟩, fun t1 t2 h he => ?_, by decide⟩
  · exact List.mem_append_left _ (mem_lines_of_dateLine _)
  · exact List.mem_append_left _ (mem_lines_of_dueLine _)
  · exact mem_lines_of_dateLine _
  · exact mem_lines_of_dueLine _
  · subst he
    exact (toOrdinal_addDays t1 h 30).2

theorem due_date_needs_same_day_readings_witness :
    (⟨2024, 1, 15⟩ : Date).Valid ∧
    toOrdinal (addDays ⟨2024, 1, 15⟩ 30) = toOrdinal ⟨2024, 1, 15⟩ + 30 :=
  ⟨by decide, due_date_needs_same_day_readings.2.1 ⟨2024, 1, 15⟩ ⟨2024, 1, 15⟩
    (by decide) rfl⟩

/-- C10: no line total is computed from quantity × unit price: the FPDF
variant's subtotal sums only the hardcoded 4th tuple component, so the
rendered totals are unchanged under any alteration of the quantity and
unit-price fields; the ReportLab variant's table and totals are fixed
string literals; for every run the rendered totals equal these constants. -/
theorem totals_independent_of_qty_and_unit_price :
    (∀ svcs : List Service, total_ht svcs = (svcs.map Service.total).sum) ∧
    (∀ (s1 s2 : List Service) (t1 t2 t3 t4 : Date),
      s1.map Service.total = s2.map Service.total →
      (french_content_with s1 t1 t2).totals =
        (french_content_with s2 t3 t4).totals) ∧
    (∀ t1 t2 : Date,
      (clean_content t1 t2).items = clean_table_rows ∧
      (clean_content t1 t2).totals = clean_totals_data ∧
      clean_totals_data = [["Sous-total HT:", "1850.00 EUR"],
        ["TVA (20%):", "370.00 EUR"],
        ["<b>TOTAL TTC:</b>", "<b>2220.00 EUR</b>"]]) ∧
    (∀ t1 t2 : Date, (french_content t1 t2).totals =
      [["Sous-total HT:", "1850.00 EUR"], ["TVA (20%):", "370.00 EUR"],
       ["TOTAL TTC:", "2220.00 EUR"]]) := by
  refine ⟨total_ht_eq_sum, fun s1 s2 t1 t2 t3 t4 h => ?_,
    fun t1 t2 => ⟨rfl, rfl, rfl⟩, fun t1 t2 => by rfl⟩
  have hht : total_ht s1 = total_ht s2 := by
    rw [total_ht_eq_sum, total_ht_eq_sum, h]
  have e1 : (french_content_with s1 t1 t2).totals =
      [["Sous-total HT:", fmtMoney (total_ht s1)],
       ["TVA (20%):", fmtMoney (tva_amount s1)],
       ["TOTAL TTC:", fmtMoney (total_ttc s1)]] := rfl
  have e2 : (french_content_with s2 t3 t4).totals =
      [["Sous-total HT:", fmtMoney (total_ht s2)],
       ["TVA (20%):", fmtMoney (tva_amount s2)],
       ["TOTAL TTC:", fmtMoney (total_ttc s2)]] := rfl
  rw [e1, e2]
  unfold total_ttc tva_amount
  rw [hht]

theorem totals_independent_of_qty_and_unit_price_witness :
    (services.map Service.total =
      ([⟨"Développement site web", 9, 1, 100000⟩,
        ⟨"Maintenance mensuelle", 1, 77, 45000⟩,
        ⟨"Formation utilisateurs", 4, 5, 40000⟩] : List Service).map
          Service.total) ∧
    (french_content_with services ⟨2024, 1, 15⟩ ⟨2024, 1, 15⟩).totals =
      (french_content_with
        [⟨"Développement site web", 9, 1, 100000⟩,
         ⟨"Maintenance mensuelle", 1, 77, 45000⟩,
         ⟨"Formation utilisateurs", 4, 5, 40000⟩]
        ⟨2024, 2, 2⟩ ⟨2024, 3, 3⟩).totals :=
  ⟨by decide, totals_independent_of_qty_and_unit_price.2.1 _ _ _ _ _ _
    (by decide)⟩

end InvoiceComply
